import Mathlib

/-!
Shallow embedding of `src/pull_dada/y_finance/data_fetcher.py`
(class `YFinanceDataFetcher`): interval catalog, date-range clamping,
rate limiting, single-ticker fetch and the batch fetch/save loop.

Dates are modelled as day numbers (days since 0000-03-01, proleptic
Gregorian), mirroring Python's `datetime.strptime/strftime` with the
`"%Y-%m-%d"` format and `timedelta` arithmetic.  The external provider
(`yfinance`) is a parameter `provider : String → Query → Except String
(List Row)`; a raised Python exception is the `Except.error` case.
Console `print` calls, the rate-limiter acquisition and each provider
call are recorded as an event trace so that ordering claims
("before invoking the provider") are statable.
-/

/-! ### Calendar arithmetic (embedding of datetime/timedelta) -/

def isLeapYear (y : Nat) : Bool :=
  (y % 4 == 0 && y % 100 != 0) || (y % 400 == 0)

def daysInMonth (y m : Nat) : Nat :=
  if m == 2 then (if isLeapYear y then 29 else 28)
  else if m == 4 || m == 6 || m == 9 || m == 11 then 30
  else 31

/-- Day number of a civil date (days since 0000-03-01), for `y ≥ 1`. -/
def daysFromCivil (y m d : Nat) : Nat :=
  let y1 := if m ≤ 2 then y - 1 else y
  let era := y1 / 400
  let yoe := y1 % 400
  let mp := (m + 9) % 12
  let doy := (153 * mp + 2) / 5 + (d - 1)
  let doe := yoe * 365 + yoe / 4 - yoe / 100 + doy
  era * 146097 + doe

/-- Inverse of `daysFromCivil`: the civil date `(y, m, d)` of a day number. -/
def civilFromDays (n : Nat) : Nat × Nat × Nat :=
  let era := n / 146097
  let doe := n % 146097
  let yoe := (doe - doe / 1460 + doe / 36524 - doe / 146096) / 365
  let y1 := yoe + era * 400
  let doy := doe - (365 * yoe + yoe / 4 - yoe / 100)
  let mp := (5 * doy + 2) / 153
  let d := doy - (153 * mp + 2) / 5 + 1
  let m := if mp < 10 then mp + 3 else mp - 9
  (if m ≤ 2 then y1 + 1 else y1, m, d)

def digitCh (n : Nat) : Char := Char.ofNat (48 + n)

def natDigitsAux : Nat → Nat → List Char
  | 0, _ => []
  | fuel + 1, n =>
    if n < 10 then [digitCh n]
    else natDigitsAux fuel (n / 10) ++ [digitCh (n % 10)]

def natToDigits (n : Nat) : String := String.mk (natDigitsAux (n + 1) n)

def padZeros (w n : Nat) : String :=
  let s := natToDigits n
  if s.length < w then String.mk (List.replicate (w - s.length) '0') ++ s else s

/-- Embedding of `date.strftime("%Y-%m-%d")` on a day number. -/
def formatDate (n : Nat) : String :=
  let c := civilFromDays n
  padZeros 4 c.1 ++ "-" ++ padZeros 2 c.2.1 ++ "-" ++ padZeros 2 c.2.2

def charDigit (c : Char) : Option Nat :=
  if '0' ≤ c ∧ c ≤ '9' then some (c.toNat - 48) else none

def digitsValAux : List Char → Nat → Option Nat
  | [], acc => some acc
  | c :: cs, acc =>
    match charDigit c with
    | some d => digitsValAux cs (acc * 10 + d)
    | none => none

def parseNatDigits (cs : List Char) : Option Nat :=
  if cs.isEmpty then none else digitsValAux cs 0

def splitOnCharAux (sep : Char) : List Char → List Char → List (List Char)
  | [], acc => [acc.reverse]
  | c :: cs, acc =>
    if c = sep then acc.reverse :: splitOnCharAux sep cs []
    else splitOnCharAux sep cs (c :: acc)

def splitOnChar (sep : Char) (cs : List Char) : List (List Char) :=
  splitOnCharAux sep cs []

/-- Embedding of `datetime.strptime(s, "%Y-%m-%d")`: `none` is the raised
`ValueError`, `some n` the parsed date as a day number. -/
def parseDate (s : String) : Option Nat :=
  match splitOnChar '-' s.data with
  | [ys, ms, ds] =>
    match parseNatDigits ys, parseNatDigits ms, parseNatDigits ds with
    | some y, some m, some d =>
      if 1 ≤ y && y ≤ 9999 && ys.length ≤ 4 && 1 ≤ m && m ≤ 12 && ms.length ≤ 2
          && 1 ≤ d && d ≤ daysInMonth y m && ds.length ≤ 2 then
        some (daysFromCivil y m d)
      else none
    | _, _, _ => none
  | _ => none

/-! ### Data model -/

/-- One OHLCV sample row of the provider's time series (a DataFrame row). -/
structure Row where
  timestamp : Int
  Open : Int
  High : Int
  Low : Int
  Close : Int
  Volume : Int
deriving DecidableEq, Repr

/-- The two ways `stock.history` is called in `fetch_data`. -/
inductive Query
  | explicitRange (start_date end_date interval : String)
  | defaultPeriod (period interval : String)
deriving DecidableEq, Repr

/-- Observable effects of one `fetch_data` call, in order. -/
inductive Event
  | rateLimit
  | providerCall (q : Query)
  | noteLine (msg : String)
  | warnLine (msg : String)
  | errorLine (msg : String)
deriving DecidableEq, Repr

/-! ### YFinanceDataFetcher -/

/-- `self.supported_intervals` from `__init__` (insertion order kept). -/
def supported_intervals : List (String × String) :=
  [("1m", "7d"), ("2m", "60d"), ("5m", "60d"), ("15m", "60d"),
   ("30m", "60d"), ("60m", "60d"), ("90m", "60d"), ("1h", "60d"),
   ("1d", "max"), ("5d", "max"), ("1wk", "max"), ("1mo", "max"),
   ("3mo", "max")]

/-- The literal list `['1m', '2m', '5m', '15m', '30m', '60m', '1h']` that
gates the clamping branch inside `fetch_data`. -/
def minuteLimitedIntervals : List String :=
  ["1m", "2m", "5m", "15m", "30m", "60m", "1h"]

/-- Python truthiness of an optional string (`if start_date and end_date`). -/
def truthy : Option String → Bool
  | none => false
  | some s => if s = "" then false else true

/-- The body of the `try:` block in `fetch_data`: resolve the date range
(clamping minute-level intervals), call the provider once, and record the
events emitted inside the block.  `Except.error` is a raised exception
(strptime failure or provider failure) escaping to the handler. -/
def fetchTryBlock (provider : String → Query → Except String (List Row))
    (ticker interval : String) (start_date end_date : Option String) :
    Except String (List Row) × List Event :=
  if truthy start_date && truthy end_date then
    let s0 := start_date.getD ""
    let e0 := end_date.getD ""
    if interval ∈ minuteLimitedIntervals then
      match parseDate s0 with
      | none => (Except.error "time data does not match format %Y-%m-%d", [])
      | some ds =>
        match parseDate e0 with
        | none => (Except.error "time data does not match format %Y-%m-%d", [])
        | some de =>
          let max_days : Nat := if interval = "1m" then 7 else 60
          if (de : Int) - (ds : Int) > (max_days : Int) then
            let s1 := formatDate (de - max_days)
            let q := Query.explicitRange s1 e0 interval
            (provider ticker q,
             [Event.noteLine ("Note: Adjusted start date to " ++ s1 ++
                " due to " ++ interval ++ " interval limitations"),
              Event.providerCall q])
          else
            let q := Query.explicitRange s0 e0 interval
            (provider ticker q, [Event.providerCall q])
    else
      let q := Query.explicitRange s0 e0 interval
      (provider ticker q, [Event.providerCall q])
  else
    let q := Query.defaultPeriod ((supported_intervals.lookup interval).getD "")
      interval
    (provider ticker q, [Event.providerCall q])

/-- Embedding of `YFinanceDataFetcher.fetch_data`.  The first component is
the Python return value: `Except.error` is the uncaught `ValueError` for an
unsupported interval, `Except.ok none` is the Python `None` (empty data or a
caught exception), `Except.ok (some rows)` a populated DataFrame.  The second
component is the ordered event trace. -/
def fetch_data (provider : String → Query → Except String (List Row))
    (ticker interval : String) (start_date end_date : Option String) :
    Except String (Option (List Row)) × List Event :=
  if (supported_intervals.lookup interval).isNone then
    (Except.error ("Unsupported interval: " ++ interval), [])
  else
    let p := fetchTryBlock provider ticker interval start_date end_date
    match p.1 with
    | Except.ok data =>
      if data.isEmpty then
        (Except.ok none,
         Event.rateLimit :: p.2 ++
           [Event.warnLine ("Warning: No data returned for " ++ ticker)])
      else (Except.ok (some data), Event.rateLimit :: p.2)
    | Except.error msg =>
      (Except.ok none,
       Event.rateLimit :: p.2 ++
         [Event.errorLine ("Error fetching data for " ++ ticker ++ ": " ++ msg)])

/-- The provider queries issued during a trace, in order. -/
def callOf : Event → Option Query
  | Event.providerCall q => some q
  | _ => none

def calledQueries (es : List Event) : List Query := es.filterMap callOf

/-! ### RateLimiter (`_rate_limit`) -/

/-- `self.min_request_interval = 0.5` (time-units). -/
def min_request_interval : ℚ := 1 / 2

/-- `self.last_request_time`, the fetcher's only mutable field. -/
structure RateState where
  last_request_time : Option ℚ
deriving DecidableEq

/-- Embedding of `_rate_limit`, called at wall-clock time `now`: returns the
sleep duration and the updated state.  The grant happens at `now + sleep`,
and `last_request_time` is set to that grant time (the code re-reads
`time.time()` after sleeping; the clock is idealized as exact). -/
def rate_limit (st : RateState) (now : ℚ) : ℚ × RateState :=
  let sleep : ℚ :=
    match st.last_request_time with
    | none => 0
    | some t0 =>
      if now - t0 < min_request_interval then min_request_interval - (now - t0)
      else 0
  (sleep, ⟨some (now + sleep)⟩)

/-! ### Batch loop (`process_tickers`, `fetch_and_save_multiple`) -/

def pyWhitespace : Char → Bool
  | ' ' => true | '\t' => true | '\n' => true | '\r' => true
  | '\x0b' => true | '\x0c' => true
  | _ => false

def trimChars (cs : List Char) : List Char :=
  ((cs.dropWhile pyWhitespace).reverse.dropWhile pyWhitespace).reverse

/-- Embedding of `process_tickers`: split on commas, strip, upper-case,
drop empty segments. -/
def process_tickers (ticker_input : String) : List String :=
  ((splitOnChar ',' ticker_input.data).map
      (fun t => String.mk ((trimChars t).map Char.toUpper))).filter
    (fun t => t != "")

/-- Result of saving one ticker's data (`save_data`'s returned path dict). -/
structure SavePaths where
  ticker_dir : String
  data_path : String
deriving DecidableEq, Repr

/-- One entry of the `results` dict built by `fetch_and_save_multiple`. -/
inductive TickerResult
  | success (paths : SavePaths) (data : List Row)
  | error (message : String)
deriving DecidableEq, Repr

/-- `results[ticker] = v` on an insertion-ordered dict: replace in place if
the key exists, else append. -/
def dictInsert (k : String) (v : TickerResult) :
    List (String × TickerResult) → List (String × TickerResult)
  | [] => [(k, v)]
  | (k1, v1) :: rest =>
    if k1 = k then (k, v) :: rest else (k1, v1) :: dictInsert k v rest

def lookupTicker (k : String) : List (String × TickerResult) → Option TickerResult
  | [] => none
  | (k1, v) :: rest => if k1 = k then some v else lookupTicker k rest

/-- The loop body of `fetch_and_save_multiple` for one ticker: fetch, then
save on success; `Except.error` is the uncaught unsupported-interval
`ValueError` propagating out of the loop. -/
def processOne (provider : String → Query → Except String (List Row))
    (save : String → List Row → Except String SavePaths)
    (interval : String) (start_date end_date : Option String) (ticker : String) :
    Except String TickerResult :=
  match (fetch_data provider ticker interval start_date end_date).1 with
  | Except.error msg => Except.error msg
  | Except.ok none => Except.ok (TickerResult.error "Failed to fetch data")
  | Except.ok (some data) =>
    match save ticker data with
    | Except.ok paths => Except.ok (TickerResult.success paths data)
    | Except.error m =>
      Except.ok (TickerResult.error ("Error saving data: " ++ m))

/-- The `for ticker in tickers` loop, accumulating the results dict. -/
def runBatch (provider : String → Query → Except String (List Row))
    (save : String → List Row → Except String SavePaths)
    (interval : String) (start_date end_date : Option String) :
    List String → List (String × TickerResult) →
    Except String (List (String × TickerResult))
  | [], results => Except.ok results
  | t :: ts, results =>
    match processOne provider save interval start_date end_date t with
    | Except.error msg => Except.error msg
    | Except.ok r =>
      runBatch provider save interval start_date end_date ts (dictInsert t r results)

/-- Embedding of `fetch_and_save_multiple`. -/
def fetch_and_save_multiple (provider : String → Query → Except String (List Row))
    (save : String → List Row → Except String SavePaths)
    (ticker_input : String) (interval : String)
    (start_date end_date : Option String) :
    Except String (List (String × TickerResult)) :=
  runBatch provider save interval start_date end_date
    (process_tickers ticker_input) []

/-- The report entry one ticker ends up with, as a function of that ticker
alone (meaningful whenever the interval is supported, so `fetch_data`
cannot raise). -/
def tickerOutcome (provider : String → Query → Except String (List Row))
    (save : String → List Row → Except String SavePaths)
    (interval : String) (start_date end_date : Option String) (ticker : String) :
    TickerResult :=
  match (fetch_data provider ticker interval start_date end_date).1 with
  | Except.error _ => TickerResult.error ""
  | Except.ok none => TickerResult.error "Failed to fetch data"
  | Except.ok (some data) =>
    match save ticker data with
    | Except.ok paths => TickerResult.success paths data
    | Except.error m => TickerResult.error ("Error saving data: " ++ m)

/-! ### Concrete collaborators used for closed-form evaluations -/

def sampleRow : Row := ⟨0, 10, 12, 9, 11, 1000⟩

/-- A provider that always returns one row. -/
def constProvider : String → Query → Except String (List Row) :=
  fun _ _ => Except.ok [sampleRow]

/-- A provider that always raises (network/provider failure). -/
def failProvider : String → Query → Except String (List Row) :=
  fun _ _ => Except.error "boom"

/-- A provider that returns an empty series for BADTICKER, one row otherwise. -/
def mixedProvider : String → Query → Except String (List Row) :=
  fun t _ => if t = "BADTICKER" then Except.ok [] else Except.ok [sampleRow]

/-- A storage collaborator that always succeeds. -/
def okSave : String → List Row → Except String SavePaths :=
  fun t _ => Except.ok ⟨t, t ++ ".csv"⟩
/-! ### Helper lemmas -/

theorem minute_supported {interval : String} (hmem : interval ∈ minuteLimitedIntervals) :
    (supported_intervals.lookup interval).isSome = true := by
  simp only [minuteLimitedIntervals, List.mem_cons, List.not_mem_nil, or_false] at hmem
  rcases hmem with rfl | rfl | rfl | rfl | rfl | rfl | rfl <;> rfl

theorem calledQueries_cons_append (l tail : List Event) :
    calledQueries (Event.rateLimit :: l ++ tail) =
      calledQueries l ++ calledQueries tail := by
  simp [calledQueries, callOf]

theorem fetch_data_events_shape (provider : String → Query → Except String (List Row))
    (ticker interval : String) (s e : Option String)
    (hsup : (supported_intervals.lookup interval).isSome = true) :
    ∃ tail, (fetch_data provider ticker interval s e).2 =
      Event.rateLimit :: (fetchTryBlock provider ticker interval s e).2 ++ tail ∧
      calledQueries tail = [] := by
  have hn : (supported_intervals.lookup interval).isNone = false := by
    rcases h : supported_intervals.lookup interval with _ | v
    · rw [h] at hsup; simp at hsup
    · simp
  unfold fetch_data
  rw [if_neg (by simp [hn])]
  rcases h1 : (fetchTryBlock provider ticker interval s e).1 with msg | data
  · refine ⟨[Event.errorLine ("Error fetching data for " ++ ticker ++ ": " ++ msg)],
      by simp [h1], by simp [calledQueries, callOf]⟩
  · by_cases hde : data.isEmpty
    · refine ⟨[Event.warnLine ("Warning: No data returned for " ++ ticker)],
        by simp [h1, hde], by simp [calledQueries, callOf]⟩
    · exact ⟨[], by simp [h1, hde], rfl⟩

theorem calledQueries_fetch (provider : String → Query → Except String (List Row))
    (ticker interval : String) (s e : Option String)
    (hsup : (supported_intervals.lookup interval).isSome = true) :
    calledQueries (fetch_data provider ticker interval s e).2 =
      calledQueries (fetchTryBlock provider ticker interval s e).2 := by
  obtain ⟨tail, hsh, htl⟩ := fetch_data_events_shape provider ticker interval s e hsup
  rw [hsh, calledQueries_cons_append, htl, List.append_nil]

theorem mem_fetch_events {provider : String → Query → Except String (List Row)}
    {ticker interval : String} {s e : Option String} {ev : Event}
    (hsup : (supported_intervals.lookup interval).isSome = true)
    (hev : ev ∈ (fetchTryBlock provider ticker interval s e).2) :
    ev ∈ (fetch_data provider ticker interval s e).2 := by
  obtain ⟨tail, hsh, -⟩ := fetch_data_events_shape provider ticker interval s e hsup
  rw [hsh]
  exact List.mem_cons_of_mem _ (List.mem_append_left _ hev)
theorem fetchTryBlock_clamped (provider : String → Query → Except String (List Row))
    (ticker interval s e : String) (ds de m : Nat)
    (hmem : interval ∈ minuteLimitedIntervals)
    (hs : parseDate s = some ds) (he : parseDate e = some de)
    (hs0 : s ≠ "") (he0 : e ≠ "")
    (hm : m = if interval = "1m" then 7 else 60)
    (hspan : (de : Int) - (ds : Int) > (m : Int)) :
    fetchTryBlock provider ticker interval (some s) (some e) =
      (provider ticker (Query.explicitRange (formatDate (de - m)) e interval),
       [Event.noteLine ("Note: Adjusted start date to " ++ formatDate (de - m) ++
          " due to " ++ interval ++ " interval limitations"),
        Event.providerCall (Query.explicitRange (formatDate (de - m)) e interval)]) := by
  subst hm
  unfold fetchTryBlock
  rw [show truthy (some s) = true by simp [truthy, hs0],
      show truthy (some e) = true by simp [truthy, he0]]
  simp only [Bool.and_self, if_true, Option.getD_some, if_pos hmem, hs, he, if_pos hspan]

theorem fetchTryBlock_minute_noclamp (provider : String → Query → Except String (List Row))
    (ticker interval s e : String) (ds de m : Nat)
    (hmem : interval ∈ minuteLimitedIntervals)
    (hs : parseDate s = some ds) (he : parseDate e = some de)
    (hs0 : s ≠ "") (he0 : e ≠ "")
    (hm : m = if interval = "1m" then 7 else 60)
    (hspan : ¬ ((de : Int) - (ds : Int) > (m : Int))) :
    fetchTryBlock provider ticker interval (some s) (some e) =
      (provider ticker (Query.explicitRange s e interval),
       [Event.providerCall (Query.explicitRange s e interval)]) := by
  subst hm
  unfold fetchTryBlock
  rw [show truthy (some s) = true by simp [truthy, hs0],
      show truthy (some e) = true by simp [truthy, he0]]
  simp only [Bool.and_self, if_true, Option.getD_some, if_pos hmem, hs, he, if_neg hspan]

theorem fetchTryBlock_nonminute (provider : String → Query → Except String (List Row))
    (ticker interval s e : String)
    (hmem : interval ∉ minuteLimitedIntervals)
    (hs0 : s ≠ "") (he0 : e ≠ "") :
    fetchTryBlock provider ticker interval (some s) (some e) =
      (provider ticker (Query.explicitRange s e interval),
       [Event.providerCall (Query.explicitRange s e interval)]) := by
  unfold fetchTryBlock
  rw [show truthy (some s) = true by simp [truthy, hs0],
      show truthy (some e) = true by simp [truthy, he0]]
  simp only [Bool.and_self, if_true, Option.getD_some, if_neg hmem]

theorem fetchTryBlock_default (provider : String → Query → Except String (List Row))
    (ticker interval : String) (s e : Option String)
    (hfalsy : (truthy s && truthy e) = false) :
    fetchTryBlock provider ticker interval s e =
      (provider ticker (Query.defaultPeriod
          ((supported_intervals.lookup interval).getD "") interval),
       [Event.providerCall (Query.defaultPeriod
          ((supported_intervals.lookup interval).getD "") interval)]) := by
  unfold fetchTryBlock
  rw [hfalsy]
  simp

theorem fetchTryBlock_badparse (provider : String → Query → Except String (List Row))
    (ticker interval s e : String)
    (hmem : interval ∈ minuteLimitedIntervals)
    (hs0 : s ≠ "") (he0 : e ≠ "")
    (hbad : parseDate s = none ∨ parseDate e = none) :
    fetchTryBlock provider ticker interval (some s) (some e) =
      (Except.error "time data does not match format %Y-%m-%d", []) := by
  unfold fetchTryBlock
  rw [show truthy (some s) = true by simp [truthy, hs0],
      show truthy (some e) = true by simp [truthy, he0]]
  simp only [Bool.and_self, if_true, Option.getD_some, if_pos hmem]
  rcases hbad with hbad | hbad
  · rw [hbad]
  · rw [hbad]
    rcases hps : parseDate s with _ | ds <;> simp
theorem fetch_data_not_error (provider : String → Query → Except String (List Row))
    (ticker interval : String) (s e : Option String)
    (hsup : (supported_intervals.lookup interval).isSome = true) :
    ∃ r, (fetch_data provider ticker interval s e).1 = Except.ok r := by
  have hn : (supported_intervals.lookup interval).isNone = false := by
    rcases h : supported_intervals.lookup interval with _ | v
    · rw [h] at hsup; simp at hsup
    · simp
  unfold fetch_data
  rw [if_neg (by simp [hn])]
  rcases h1 : (fetchTryBlock provider ticker interval s e).1 with msg | data
  · exact ⟨none, by simp [h1]⟩
  · by_cases hde : data.isEmpty
    · exact ⟨none, by simp [h1, hde]⟩
    · exact ⟨some data, by simp [h1, hde]⟩

theorem processOne_eq (provider : String → Query → Except String (List Row))
    (save : String → List Row → Except String SavePaths)
    (interval : String) (s e : Option String) (t : String)
    (hsup : (supported_intervals.lookup interval).isSome = true) :
    processOne provider save interval s e t =
      Except.ok (tickerOutcome provider save interval s e t) := by
  obtain ⟨r, hr⟩ := fetch_data_not_error provider t interval s e hsup
  unfold processOne tickerOutcome
  rw [hr]
  rcases r with _ | data
  · rfl
  · rcases hsv : save t data with m | p <;> simp [hsv]

theorem runBatch_ok (provider : String → Query → Except String (List Row))
    (save : String → List Row → Except String SavePaths)
    (interval : String) (s e : Option String)
    (hsup : (supported_intervals.lookup interval).isSome = true) :
    ∀ (ts : List String) (acc : List (String × TickerResult)),
      runBatch provider save interval s e ts acc =
        Except.ok (ts.foldl
          (fun r t => dictInsert t (tickerOutcome provider save interval s e t) r) acc)
  | [], acc => rfl
  | t :: ts, acc => by
    unfold runBatch
    rw [processOne_eq provider save interval s e t hsup]
    exact runBatch_ok provider save interval s e hsup ts _

theorem lookupTicker_dictInsert_self (k : String) (v : TickerResult) :
    ∀ l, lookupTicker k (dictInsert k v l) = some v
  | [] => by simp [dictInsert, lookupTicker]
  | (k1, v1) :: rest => by
    unfold dictInsert
    by_cases h : k1 = k
    · simp [h, lookupTicker]
    · simp [h, lookupTicker, lookupTicker_dictInsert_self k v rest]

theorem lookupTicker_dictInsert_ne (k u : String) (v : TickerResult) (hne : k ≠ u) :
    ∀ l, lookupTicker u (dictInsert k v l) = lookupTicker u l
  | [] => by simp [dictInsert, lookupTicker, hne]
  | (k1, v1) :: rest => by
    unfold dictInsert
    by_cases h : k1 = k
    · simp [h, lookupTicker, hne]
    · simp [h, lookupTicker, lookupTicker_dictInsert_ne k u v hne rest]

theorem lookupTicker_foldl_not_mem (f : String → TickerResult) (u : String) :
    ∀ (ts : List String) (acc : List (String × TickerResult)), u ∉ ts →
      lookupTicker u (ts.foldl (fun r t => dictInsert t (f t) r) acc) =
        lookupTicker u acc
  | [], acc, _ => rfl
  | t :: ts, acc, hu => by
    have ht : t ≠ u := fun h => hu (h ▸ List.mem_cons_self t ts)
    have hu' : u ∉ ts := fun h => hu (List.mem_cons_of_mem t h)
    rw [List.foldl_cons, lookupTicker_foldl_not_mem f u ts _ hu',
        lookupTicker_dictInsert_ne t u (f t) ht]

theorem lookupTicker_foldl_mem (f : String → TickerResult) (u : String) :
    ∀ (ts : List String) (acc : List (String × TickerResult)), u ∈ ts →
      lookupTicker u (ts.foldl (fun r t => dictInsert t (f t) r) acc) =
        some (f u)
  | [], _, hu => absurd hu (List.not_mem_nil u)
  | t :: ts, acc, hu => by
    rw [List.foldl_cons]
    by_cases hmem : u ∈ ts
    · exact lookupTicker_foldl_mem f u ts _ hmem
    · have ht : t = u := by
        rcases List.mem_cons.mp hu with h | h
        · exact h.symm
        · exact absurd h hmem
      rw [lookupTicker_foldl_not_mem f u ts _ hmem, ht,
          lookupTicker_dictInsert_self u (f u)]

theorem batch_report (provider : String → Query → Except String (List Row))
    (save : String → List Row → Except String SavePaths)
    (ticker_input interval : String) (s e : Option String)
    (hsup : (supported_intervals.lookup interval).isSome = true) :
    ∃ report, fetch_and_save_multiple provider save ticker_input interval s e =
        Except.ok report ∧
      ∀ u ∈ process_tickers ticker_input,
        lookupTicker u report = some (tickerOutcome provider save interval s e u) := by
  refine ⟨_, runBatch_ok provider save interval s e hsup (process_tickers ticker_input) [], ?_⟩
  intro u hu
  exact lookupTicker_foldl_mem _ u _ [] hu
theorem supported_not_isNone {interval : String}
    (hsup : (supported_intervals.lookup interval).isSome = true) :
    (supported_intervals.lookup interval).isNone = false := by
  rcases h : supported_intervals.lookup interval with _ | v
  · rw [h] at hsup; simp at hsup
  · simp

theorem fetch_data_caught {provider : String → Query → Except String (List Row)}
    {ticker interval : String} {s e : Option String} {msg : String}
    (hsup : (supported_intervals.lookup interval).isSome = true)
    (hraise : (fetchTryBlock provider ticker interval s e).1 = Except.error msg) :
    (fetch_data provider ticker interval s e).1 = Except.ok none := by
  unfold fetch_data
  rw [if_neg (by simp [supported_not_isNone hsup])]
  simp [hraise]

theorem fetch_data_empty_caught {provider : String → Query → Except String (List Row)}
    {ticker interval : String} {s e : Option String}
    (hsup : (supported_intervals.lookup interval).isSome = true)
    (hempty : (fetchTryBlock provider ticker interval s e).1 = Except.ok []) :
    (fetch_data provider ticker interval s e).1 = Except.ok none := by
  unfold fetch_data
  rw [if_neg (by simp [supported_not_isNone hsup])]
  simp [hempty]

theorem tickerOutcome_of_none {provider : String → Query → Except String (List Row)}
    {save : String → List Row → Except String SavePaths}
    {interval : String} {s e : Option String} {t : String}
    (hfd : (fetch_data provider t interval s e).1 = Except.ok none) :
    tickerOutcome provider save interval s e t =
      TickerResult.error "Failed to fetch data" := by
  unfold tickerOutcome
  rw [hfd]

/-- C1 (amended): with both dates present and parseable, the clamping branch
fires exactly for the intervals in the literal list
`['1m', '2m', '5m', '15m', '30m', '60m', '1h']`: there, when the span in
days exceeds the maximum (7 for 1m, 60 otherwise) the provider receives
`end - max` as start, and otherwise both dates pass through unchanged.  The
interval `90m`, although listed in the catalog with a 60-day limit, is NOT
in that list: its dates always pass through unchanged. -/
theorem c1_clamping_corrected
    (provider : String → Query → Except String (List Row))
    (ticker interval s e : String) (ds de m : Nat)
    (hs : parseDate s = some ds) (he : parseDate e = some de)
    (hs0 : s ≠ "") (he0 : e ≠ "")
    (hm : m = if interval = "1m" then 7 else 60) :
    (interval ∈ minuteLimitedIntervals →
      (((de : Int) - (ds : Int) > (m : Int)) →
        calledQueries (fetch_data provider ticker interval (some s) (some e)).2 =
          [Query.explicitRange (formatDate (de - m)) e interval]) ∧
      (¬ ((de : Int) - (ds : Int) > (m : Int)) →
        calledQueries (fetch_data provider ticker interval (some s) (some e)).2 =
          [Query.explicitRange s e interval])) ∧
    (interval = "90m" →
      calledQueries (fetch_data provider ticker interval (some s) (some e)).2 =
        [Query.explicitRange s e interval]) := by
  constructor
  · intro hmem
    have hsup := minute_supported hmem
    constructor
    · intro hspan
      rw [calledQueries_fetch provider ticker interval _ _ hsup,
          fetchTryBlock_clamped provider ticker interval s e ds de m hmem hs he hs0 he0 hm hspan]
      simp [calledQueries, callOf]
    · intro hspan
      rw [calledQueries_fetch provider ticker interval _ _ hsup,
          fetchTryBlock_minute_noclamp provider ticker interval s e ds de m hmem hs he hs0 he0 hm hspan]
      simp [calledQueries, callOf]
  · rintro rfl
    have hsup : (supported_intervals.lookup "90m").isSome = true := rfl
    have hnm : "90m" ∉ minuteLimitedIntervals := by decide
    rw [calledQueries_fetch provider ticker "90m" _ _ hsup,
        fetchTryBlock_nonminute provider ticker "90m" s e hnm hs0 he0]
    simp [calledQueries, callOf]

/-- C1 counterexample: `90m` has the bounded 60-day maximum in the catalog,
and the span 2024-01-01..2024-06-01 is 152 days, yet the provider receives
the original start `2024-01-01` instead of `end - 60 = 2024-04-02`. -/
theorem c1_90m_counterexample :
    supported_intervals.lookup "90m" = some "60d" ∧
    (parseDate "2024-06-01").getD 0 - (parseDate "2024-01-01").getD 0 = 152 ∧
    calledQueries (fetch_data constProvider "AAPL" "90m"
        (some "2024-01-01") (some "2024-06-01")).2 =
      [Query.explicitRange "2024-01-01" "2024-06-01" "90m"] ∧
    formatDate ((parseDate "2024-06-01").getD 0 - 60) = "2024-04-02" ∧
    "2024-01-01" ≠ "2024-04-02" :=
  ⟨rfl, rfl, rfl, rfl, by decide⟩

/-- C1 witness: the amended theorem applied at interval `1m`, span 31 > 7. -/
theorem c1_clamping_witness :
    calledQueries (fetch_data constProvider "AAPL" "1m"
        (some "2024-01-01") (some "2024-02-01")).2 =
      [Query.explicitRange "2024-01-25" "2024-02-01" "1m"] := by
  have h := ((c1_clamping_corrected constProvider "AAPL" "1m" "2024-01-01" "2024-02-01"
      739191 739222 7 rfl rfl (by decide) (by decide) rfl).1 (by decide)).1 (by decide)
  rw [show formatDate (739222 - 7) = "2024-01-25" from rfl] at h
  exact h
/-- C2 (amended): for a supported interval with an explicit range whose end
is strictly before its start, `fetch_data` raises nothing: no
`InvalidRangeError` exists in the code.  The dates are passed to the
provider unchanged (not swapped, not clamped, since the negative span never
exceeds the maximum), and the call returns normally. -/
theorem c2_inverted_range_corrected
    (provider : String → Query → Except String (List Row))
    (ticker interval s e : String) (ds de : Nat)
    (hsup : (supported_intervals.lookup interval).isSome = true)
    (hs0 : s ≠ "") (he0 : e ≠ "")
    (hpar : interval ∈ minuteLimitedIntervals →
      parseDate s = some ds ∧ parseDate e = some de ∧ de < ds) :
    calledQueries (fetch_data provider ticker interval (some s) (some e)).2 =
      [Query.explicitRange s e interval] ∧
    ∃ r, (fetch_data provider ticker interval (some s) (some e)).1 = Except.ok r := by
  refine ⟨?_, fetch_data_not_error provider ticker interval _ _ hsup⟩
  rw [calledQueries_fetch provider ticker interval _ _ hsup]
  by_cases hmem : interval ∈ minuteLimitedIntervals
  · obtain ⟨hs, he, hlt⟩ := hpar hmem
    have hspan : ¬ ((de : Int) - (ds : Int) >
        (((if interval = "1m" then 7 else 60 : Nat)) : Int)) := by
      have h0 : (0 : Int) ≤ ((if interval = "1m" then 7 else 60 : Nat) : Int) :=
        Int.ofNat_nonneg _
      omega
    rw [fetchTryBlock_minute_noclamp provider ticker interval s e ds de _
        hmem hs he hs0 he0 rfl hspan]
    simp [calledQueries, callOf]
  · rw [fetchTryBlock_nonminute provider ticker interval s e hmem hs0 he0]
    simp [calledQueries, callOf]

/-- C2 counterexample: `fetch_data` on `1m` with start 2024-02-01 and end
2024-01-01 returns a populated result (no exception of any kind) and the
provider IS called with the inverted, unswapped range. -/
theorem c2_no_invalid_range_counterexample :
    (fetch_data constProvider "AAPL" "1m"
        (some "2024-02-01") (some "2024-01-01")).1 = Except.ok (some [sampleRow]) ∧
    calledQueries (fetch_data constProvider "AAPL" "1m"
        (some "2024-02-01") (some "2024-01-01")).2 =
      [Query.explicitRange "2024-02-01" "2024-01-01" "1m"] :=
  ⟨rfl, rfl⟩

/-- C2 witness: the amended theorem applied at interval `1m` with the
inverted range 2024-02-01..2024-01-01. -/
theorem c2_inverted_range_witness :
    calledQueries (fetch_data constProvider "AAPL" "1m"
        (some "2024-02-01") (some "2024-01-01")).2 =
      [Query.explicitRange "2024-02-01" "2024-01-01" "1m"] ∧
    ∃ r, (fetch_data constProvider "AAPL" "1m"
        (some "2024-02-01") (some "2024-01-01")).1 = Except.ok r :=
  c2_inverted_range_corrected constProvider "AAPL" "1m" "2024-02-01" "2024-01-01"
    739222 739191 rfl (by decide) (by decide) (fun _ => ⟨rfl, rfl, by decide⟩)

/-- C3 (amended): when `end_date` is omitted, `fetch_data` does NOT default
the end to "now": it falls into the period branch, ignores `start_date`
entirely, and queries the provider with the interval's default period from
the catalog. -/
theorem c3_default_period_corrected
    (provider : String → Query → Except String (List Row))
    (ticker interval : String) (start_date : Option String)
    (hsup : (supported_intervals.lookup interval).isSome = true) :
    calledQueries (fetch_data provider ticker interval start_date none).2 =
      [Query.defaultPeriod ((supported_intervals.lookup interval).getD "") interval] := by
  rw [calledQueries_fetch provider ticker interval _ _ hsup,
      fetchTryBlock_default provider ticker interval _ _ (by simp [truthy])]
  simp [calledQueries, callOf]

/-- C3 counterexample: with start 2024-01-01 present and end omitted, the
only provider query is the default-period one — which is not an
explicit-range query for any pair of dates. -/
theorem c3_start_only_counterexample :
    calledQueries (fetch_data constProvider "AAPL" "1d"
        (some "2024-01-01") none).2 = [Query.defaultPeriod "max" "1d"] ∧
    ∀ a b c, Query.defaultPeriod "max" "1d" ≠ Query.explicitRange a b c :=
  ⟨rfl, fun _ _ _ h => nomatch h⟩

/-- C3 witness: the amended theorem applied at interval `1d` with only the
start date supplied. -/
theorem c3_default_period_witness :
    calledQueries (fetch_data constProvider "AAPL" "1d"
        (some "2024-01-01") none).2 = [Query.defaultPeriod "max" "1d"] :=
  c3_default_period_corrected constProvider "AAPL" "1d" (some "2024-01-01") rfl
/-- C4 (amended): a provider exception inside the `try` block is caught
locally (`fetch_data` returns `None`) and the batch continues, every other
ticker's entry being a function of that ticker alone — but the recorded
message is the fixed string "Failed to fetch data": the provider's own
message is only printed, never stored in the report (only save failures
keep their message, as "Error saving data: ..."). -/
theorem c4_provider_error_corrected
    (provider : String → Query → Except String (List Row))
    (save : String → List Row → Except String SavePaths)
    (input interval : String) (s e : Option String) (t msg : String)
    (hsup : (supported_intervals.lookup interval).isSome = true)
    (ht : t ∈ process_tickers input)
    (hraise : (fetchTryBlock provider t interval s e).1 = Except.error msg) :
    (fetch_data provider t interval s e).1 = Except.ok none ∧
    ∃ report, fetch_and_save_multiple provider save input interval s e =
        Except.ok report ∧
      lookupTicker t report = some (TickerResult.error "Failed to fetch data") ∧
      ∀ u ∈ process_tickers input,
        lookupTicker u report = some (tickerOutcome provider save interval s e u) := by
  have hfd := fetch_data_caught hsup hraise
  refine ⟨hfd, ?_⟩
  obtain ⟨report, hrep, hall⟩ := batch_report provider save input interval s e hsup
  refine ⟨report, hrep, ?_, hall⟩
  rw [hall t ht, tickerOutcome_of_none hfd]

/-- C4 counterexample: the provider raises "boom" for AAPL, but the report
entry's message is "Failed to fetch data", not "boom". -/
theorem c4_verbatim_message_counterexample :
    fetch_and_save_multiple failProvider okSave "AAPL" "1d" none none =
      Except.ok [("AAPL", TickerResult.error "Failed to fetch data")] ∧
    "Failed to fetch data" ≠ "boom" :=
  ⟨rfl, by decide⟩

/-- C4 witness: the amended theorem applied to a two-ticker batch whose
provider raises "boom" on every call. -/
theorem c4_provider_error_witness :
    (fetch_data failProvider "AAPL" "1d" none none).1 = Except.ok none ∧
    ∃ report, fetch_and_save_multiple failProvider okSave "AAPL,MSFT" "1d" none none =
        Except.ok report ∧
      lookupTicker "AAPL" report = some (TickerResult.error "Failed to fetch data") ∧
      ∀ u ∈ process_tickers "AAPL,MSFT",
        lookupTicker u report = some (tickerOutcome failProvider okSave "1d" none none u) :=
  c4_provider_error_corrected failProvider okSave "AAPL,MSFT" "1d" none none
    "AAPL" "boom" rfl (by decide) rfl

/-- C5 (confirmed): an interval code outside the catalog makes `fetch_data`
raise the unsupported-interval `ValueError` with an empty event trace — so
neither the rate limiter nor the provider was invoked — and the error
propagates out of `fetch_and_save_multiple`, aborting the whole batch. -/
theorem c5_unsupported_interval
    (provider : String → Query → Except String (List Row))
    (save : String → List Row → Except String SavePaths)
    (ticker interval input : String) (s e : Option String)
    (hsup : supported_intervals.lookup interval = none)
    (hne : process_tickers input ≠ []) :
    fetch_data provider ticker interval s e =
      (Except.error ("Unsupported interval: " ++ interval), []) ∧
    fetch_and_save_multiple provider save input interval s e =
      Except.error ("Unsupported interval: " ++ interval) := by
  have h1 : ∀ tk, fetch_data provider tk interval s e =
      (Except.error ("Unsupported interval: " ++ interval), []) := by
    intro tk
    unfold fetch_data
    rw [if_pos (by simp [hsup])]
  refine ⟨h1 ticker, ?_⟩
  unfold fetch_and_save_multiple
  rcases hts : process_tickers input with _ | ⟨t, ts⟩
  · exact absurd hts hne
  · simp [runBatch, processOne, h1 t]

/-- C5 witness: the theorem applied to the unsupported code `2d` over a
one-ticker batch. -/
theorem c5_unsupported_interval_witness :
    fetch_data constProvider "AAPL" "2d" none none =
      (Except.error ("Unsupported interval: " ++ "2d"), []) ∧
    fetch_and_save_multiple constProvider okSave "AAPL" "2d" none none =
      Except.error ("Unsupported interval: " ++ "2d") :=
  c5_unsupported_interval constProvider okSave "AAPL" "2d" "AAPL" none none
    rfl (by decide)

/-- C6 (confirmed): resolving `1m` over 2024-01-01..2024-02-01 (31-day span,
7-day maximum) sends the provider the clamped start `2024-01-25 = end - 7d`
and prints the advisory note naming that adjusted start date. -/
theorem c6_clamp_1m_example
    (provider : String → Query → Except String (List Row)) (ticker : String) :
    calledQueries (fetch_data provider ticker "1m"
        (some "2024-01-01") (some "2024-02-01")).2 =
      [Query.explicitRange "2024-01-25" "2024-02-01" "1m"] ∧
    Event.noteLine "Note: Adjusted start date to 2024-01-25 due to 1m interval limitations" ∈
      (fetch_data provider ticker "1m" (some "2024-01-01") (some "2024-02-01")).2 := by
  have hsup : (supported_intervals.lookup "1m").isSome = true := rfl
  have hcl := fetchTryBlock_clamped provider ticker "1m" "2024-01-01" "2024-02-01"
    739191 739222 7 (by decide) rfl rfl (by decide) (by decide) rfl (by decide)
  rw [show formatDate (739222 - 7) = "2024-01-25" from rfl] at hcl
  constructor
  · rw [calledQueries_fetch provider ticker "1m" _ _ hsup, hcl]
    simp [calledQueries, callOf]
  · apply mem_fetch_events hsup
    rw [hcl]
    exact List.mem_cons_self _ _
/-- C7 (confirmed): a ticker whose provider result is the empty series gets
the Error-classified entry with message "Failed to fetch data"; the batch
still completes, and every ticker's entry equals `tickerOutcome` of that
ticker alone — a function of the provider's and store's behaviour at that
ticker only, so no ticker's outcome (and no list order) affects another. -/
theorem c7_empty_series_report
    (provider : String → Query → Except String (List Row))
    (save : String → List Row → Except String SavePaths)
    (input interval : String) (s e : Option String) (t : String)
    (hsup : (supported_intervals.lookup interval).isSome = true)
    (ht : t ∈ process_tickers input)
    (hempty : (fetchTryBlock provider t interval s e).1 = Except.ok []) :
    ∃ report, fetch_and_save_multiple provider save input interval s e =
        Except.ok report ∧
      lookupTicker t report = some (TickerResult.error "Failed to fetch data") ∧
      ∀ u ∈ process_tickers input,
        lookupTicker u report = some (tickerOutcome provider save interval s e u) := by
  have hfd := fetch_data_empty_caught hsup hempty
  obtain ⟨report, hrep, hall⟩ := batch_report provider save input interval s e hsup
  refine ⟨report, hrep, ?_, hall⟩
  rw [hall t ht, tickerOutcome_of_none hfd]

/-- C7 witness: the theorem applied to the batch "AAPL,BADTICKER" where the
provider returns data for AAPL and an empty series for BADTICKER. -/
theorem c7_empty_series_witness :
    ∃ report, fetch_and_save_multiple mixedProvider okSave "AAPL,BADTICKER" "1d"
        none none = Except.ok report ∧
      lookupTicker "BADTICKER" report =
        some (TickerResult.error "Failed to fetch data") ∧
      ∀ u ∈ process_tickers "AAPL,BADTICKER",
        lookupTicker u report =
          some (tickerOutcome mixedProvider okSave "1d" none none u) :=
  c7_empty_series_report mixedProvider okSave "AAPL,BADTICKER" "1d" none none
    "BADTICKER" rfl (by decide) rfl

/-- C8 (confirmed): with a previous grant recorded at `t0` and a new
`_rate_limit` call at `now`, the caller sleeps exactly the remaining delta
when less than `min_request_interval = 1/2` has elapsed, sleeps nothing
otherwise, and in both cases the new grant `now + sleep` is at least
`t0 + min_request_interval`; the grant time is stored as the new
`last_request_time`. -/
theorem c8_rate_limit_spacing (t0 now : ℚ) (_hmono : t0 ≤ now) :
    (now - t0 < min_request_interval →
      (rate_limit ⟨some t0⟩ now).1 = min_request_interval - (now - t0)) ∧
    (min_request_interval ≤ now - t0 → (rate_limit ⟨some t0⟩ now).1 = 0) ∧
    t0 + min_request_interval ≤ now + (rate_limit ⟨some t0⟩ now).1 ∧
    ((rate_limit ⟨some t0⟩ now).2).last_request_time =
      some (now + (rate_limit ⟨some t0⟩ now).1) := by
  refine ⟨fun hlt => by simp [rate_limit, hlt], fun hge => ?_, ?_, ?_⟩
  · simp [rate_limit, not_lt.mpr hge]
  · by_cases hlt : now - t0 < min_request_interval
    · simp only [rate_limit, hlt, if_true]
      linarith
    · simp only [rate_limit, hlt, if_false]
      have := not_lt.mp hlt
      linarith
  · rfl

/-- C8 witness: the theorem applied at a last grant of 0 and a second call
at time 1/4, a quarter time-unit later. -/
theorem c8_rate_limit_witness :
    ((1 : ℚ) / 4 - 0 < min_request_interval →
      (rate_limit ⟨some 0⟩ (1 / 4)).1 = min_request_interval - (1 / 4 - 0)) ∧
    (min_request_interval ≤ (1 : ℚ) / 4 - 0 →
      (rate_limit ⟨some 0⟩ (1 / 4)).1 = 0) ∧
    (0 : ℚ) + min_request_interval ≤ 1 / 4 + (rate_limit ⟨some 0⟩ (1 / 4)).1 ∧
    ((rate_limit ⟨some 0⟩ (1 / 4)).2).last_request_time =
      some (1 / 4 + (rate_limit ⟨some 0⟩ (1 / 4)).1) :=
  c8_rate_limit_spacing 0 (1 / 4) (by norm_num)

/-- C9 (confirmed): whenever `fetch_data` returns instead of raising, the
returned value is `None` or a series with at least one row; the empty
series is converted to `None` before returning. -/
theorem c9_no_empty_dataframe
    (provider : String → Query → Except String (List Row))
    (ticker interval : String) (s e : Option String) (r : Option (List Row))
    (h : (fetch_data provider ticker interval s e).1 = Except.ok r) :
    r = none ∨ ∃ l, r = some l ∧ l ≠ [] := by
  by_cases hn : (supported_intervals.lookup interval).isNone
  · unfold fetch_data at h
    rw [if_pos hn] at h
    exact absurd h (by simp)
  · unfold fetch_data at h
    rw [if_neg hn] at h
    rcases h1 : (fetchTryBlock provider ticker interval s e).1 with msg | data
    · simp only [h1] at h
      exact Or.inl (Except.ok.inj h).symm
    · rcases data with _ | ⟨row, rest⟩
      · simp only [h1, List.isEmpty_nil, if_true] at h
        exact Or.inl (Except.ok.inj h).symm
      · simp only [h1, List.isEmpty_cons, if_false] at h
        exact Or.inr ⟨row :: rest, (Except.ok.inj h).symm, by simp⟩

/-- C9 witness: the theorem applied to a provider returning one row. -/
theorem c9_no_empty_dataframe_witness :
    some [sampleRow] = none ∨
      ∃ l, some [sampleRow] = some l ∧ l ≠ ([] : List Row) :=
  c9_no_empty_dataframe constProvider "AAPL" "1d" none none (some [sampleRow]) rfl

/-- C10 (confirmed): for a minute-limited interval with both dates present,
an unparseable date string raises inside the `try` block and is caught by
the same handler as provider failures: `fetch_data` returns `None`, the
provider is never called, and the batch records the ticker as the usual
"Failed to fetch data" error instead of aborting. -/
theorem c10_malformed_date_caught
    (provider : String → Query → Except String (List Row))
    (save : String → List Row → Except String SavePaths)
    (input interval s e t : String)
    (hmem : interval ∈ minuteLimitedIntervals)
    (hs0 : s ≠ "") (he0 : e ≠ "")
    (hbad : parseDate s = none ∨ parseDate e = none)
    (ht : t ∈ process_tickers input) :
    (fetch_data provider t interval (some s) (some e)).1 = Except.ok none ∧
    calledQueries (fetch_data provider t interval (some s) (some e)).2 = [] ∧
    ∃ report, fetch_and_save_multiple provider save input interval
        (some s) (some e) = Except.ok report ∧
      lookupTicker t report = some (TickerResult.error "Failed to fetch data") := by
  have hsup := minute_supported hmem
  have htb := fetchTryBlock_badparse provider t interval s e hmem hs0 he0 hbad
  have htb1 : (fetchTryBlock provider t interval (some s) (some e)).1 =
      Except.error "time data does not match format %Y-%m-%d" := by rw [htb]
  have hfd := fetch_data_caught hsup htb1
  refine ⟨hfd, ?_, ?_⟩
  · rw [calledQueries_fetch provider t interval _ _ hsup, htb]
    rfl
  · obtain ⟨report, hrep, hall⟩ :=
      batch_report provider save input interval (some s) (some e) hsup
    exact ⟨report, hrep, by rw [hall t ht, tickerOutcome_of_none hfd]⟩

/-- C10 witness: the theorem applied at interval `1m` with the malformed
start date "garbage". -/
theorem c10_malformed_date_witness :
    (fetch_data constProvider "AAPL" "1m"
        (some "garbage") (some "2024-01-01")).1 = Except.ok none ∧
    calledQueries (fetch_data constProvider "AAPL" "1m"
        (some "garbage") (some "2024-01-01")).2 = [] ∧
    ∃ report, fetch_and_save_multiple constProvider okSave "AAPL" "1m"
        (some "garbage") (some "2024-01-01") = Except.ok report ∧
      lookupTicker "AAPL" report = some (TickerResult.error "Failed to fetch data") :=
  c10_malformed_date_caught constProvider okSave "AAPL" "1m" "garbage" "2024-01-01"
    "AAPL" (by decide) (by decide) (by decide) (Or.inl rfl) (by decide)
